import Mathlib

/-!
Shallow embedding of the PATHWAY backend data models (src/models.py).

The source is a Flask/SQLAlchemy application.  Each model class becomes a
structure holding exactly the columns declared in the source; each
`@validates` hook becomes a function returning `Except String` (a raised
`ValueError` is `Except.error` with the source's message); SQLAlchemy
attribute assignment becomes a function that runs the declared hook for the
assigned key, or sets the attribute unchecked when the class declares no
hook for it; a Python `AttributeError` on reading an attribute the class
does not define is `Except.error ("AttributeError: " ++ name)`.

`TIMESTAMP` columns are modelled as integers (epoch instants) and
`Numeric(10,2)` columns as rationals.  `to_dict` serializers are embedded
statement by statement in the source's evaluation order, so that the first
read of a missing attribute aborts serialization exactly as in Python.
-/

namespace Pathway

/-- Python values that can appear in a `to_dict` output record. -/
inductive PyVal where
  | vInt : Int → PyVal
  | vStr : String → PyVal
  | vRat : Rat → PyVal
  | vList : List PyVal → PyVal
  | vDict : List (String × PyVal) → PyVal

/-- Reading `self.<nm>`: a defined attribute yields its value, an undefined
one raises `AttributeError` (modelled as `Except.error`). -/
def readAttr (x : Option PyVal) (nm : String) : Except String PyVal :=
  match x with
  | some v => Except.ok v
  | none => Except.error ("AttributeError: " ++ nm)

/-! ### Semantics of `re.match(r"[^@]+@[^@]+\.[^@]+", email)`

`re.match` anchors at the start only, so the pattern accepts any string with
a prefix of the form: one or more non-`'@'` characters, `'@'`, one or more
non-`'@'` characters, `'.'`, one or more non-`'@'` characters.  The scanners
below decide this language over the string's character list. -/

/-- Scanner for the residue after the mandatory character following `'@'`:
succeeds when a `'.'` followed by a non-`'@'` character occurs before any
`'@'`. -/
def dotScan : List Char → Bool
  | [] => false
  | x :: t =>
    if x = '@' then false
    else if x = '.' then
      match t with
      | [] => false
      | c :: _ => decide (c ≠ '@')
    else dotScan t

/-- Scanner for the part after the first `'@'`: needs at least one
non-`'@'` character, then a `'.'` and a further non-`'@'` character. -/
def afterAtScan : List Char → Bool
  | [] => false
  | x :: t => if x = '@' then false else dotScan t

/-- Scanner for the local part after its mandatory first character: skips
non-`'@'` characters until the first `'@'`, then hands over to
`afterAtScan`. -/
def localScan : List Char → Bool
  | [] => false
  | x :: t => if x = '@' then afterAtScan t else localScan t

/-- List-level scanner for the whole pattern: the local part needs at least
one non-`'@'` character before `localScan` takes over. -/
def regexScan : List Char → Bool
  | [] => false
  | x :: t => if x = '@' then false else localScan t

/-- Whether `re.match(r"[^@]+@[^@]+\.[^@]+", s)` succeeds (src/models.py:20). -/
def emailRegexAccepts (s : String) : Bool :=
  regexScan s.toList

/-! ### Entity structures (the columns declared in src/models.py) -/

/-- Embeds the `User` model (src/models.py:10-16): columns `user_id`,
`role`, `name`, `email`, `password_hash`.  The source declares no
`username`, `phone` or `date_joined` column. -/
structure User where
  user_id : Int
  role : String
  name : String
  email : String
  password_hash : String
deriving DecidableEq

/-- Embeds the `Job` model (src/models.py:59-68): columns `job_id`,
`job_name`, `job_description`, `location`, `requirements`, `salary`,
`posted_date`, `expiration_date`. -/
structure Job where
  job_id : Int
  job_name : String
  job_description : String
  location : String
  requirements : String
  salary : Rat
  posted_date : Int
  expiration_date : Int
deriving DecidableEq

/-- Embeds the `JobApplication` model (src/models.py:110-115): columns
`application_id`, `user_id`, `job_id` only (`curriculum_vitae` is commented
out in the source; no `status` or `application_date` column is declared). -/
structure JobApplication where
  application_id : Int
  user_id : Int
  job_id : Int
deriving DecidableEq

/-- Embeds the `Payment` model (src/models.py:150-156): columns
`payment_id`, `user_id`, `amount`, `payment_date`, `payment_method`. -/
structure Payment where
  payment_id : Int
  user_id : Int
  amount : Rat
  payment_date : Int
  payment_method : String
deriving DecidableEq

/-- Embeds the `ExtraResource` model (src/models.py:187-191): columns
`resource_id`, `title`, `description` only (`content_url` is commented out;
no foreign key or relationship to `Job` is declared). -/
structure ExtraResource where
  resource_id : Int
  title : String
  description : String
deriving DecidableEq

/-! ### Validation hooks (`@validates` in src/models.py) -/

/-- Embeds `User.validate_email` (src/models.py:18-22): rejects when
`re.match(r"[^@]+@[^@]+\.[^@]+", email)` fails. -/
def User.validate_email (_self : User) (email : String) : Except String String :=
  if emailRegexAccepts email then Except.ok email
  else Except.error "Invalid email format"

/-- Embeds `User.validate_role` (src/models.py:24-28). -/
def User.validate_role (_self : User) (role : String) : Except String String :=
  if role ∈ ["normal", "premium", "admin"] then Except.ok role
  else Except.error "Invalid role"

/-- Embeds `User.validate_password_hash` (src/models.py:30-34). -/
def User.validate_password_hash (_self : User) (password_hash : String) :
    Except String String :=
  if password_hash.length < 6 then
    Except.error "Password must be at least 6 characters long"
  else Except.ok password_hash

/-- Embeds `Job.validate_salary` (src/models.py:70-74): rejects any
candidate `salary <= 0`. -/
def Job.validate_salary (_self : Job) (salary : Rat) : Except String Rat :=
  if salary ≤ 0 then Except.error "Salary must be greater than 0"
  else Except.ok salary

/-- Embeds `Job.validate_expiration_date` (src/models.py:75-79): the
candidate is compared against the entity's own `posted_date` column, not
against the current time. -/
def Job.validate_expiration_date (self : Job) (expiration_date : Int) :
    Except String Int :=
  if expiration_date ≤ self.posted_date then
    Except.error "Expiration date must be after posted date"
  else Except.ok expiration_date

/-- Embeds `Job.validate_posted_date` (src/models.py:80-84).  The guard
`posted_date > db.func.current_timestamp()` compares the candidate against
a SQLAlchemy SQL-function expression object, not a concrete time: the
reflected comparison builds a clause object, and evaluating that object's
truth value in `if ...` raises `TypeError: Boolean value of this clause is
not defined` for every candidate.  The hook therefore raises
unconditionally, before `return posted_date` can ever be reached. -/
def Job.validate_posted_date (_self : Job) (_posted_date : Int) :
    Except String Int :=
  Except.error "TypeError: Boolean value of this clause is not defined"

/-- Embeds `Payment.validate_amount` (src/models.py:157-161): rejects any
candidate `amount <= 0`; there is no comparison against a fixed constant. -/
def Payment.validate_amount (_self : Payment) (amount : Rat) :
    Except String Rat :=
  if amount ≤ 0 then Except.error "Amount must be greater than 0"
  else Except.ok amount

/-- Embeds `Payment.validate_payment_method` (src/models.py:162-166). -/
def Payment.validate_payment_method (_self : Payment) (payment_method : String) :
    Except String String :=
  if payment_method ∈ ["credit_card", "paypal"] then Except.ok payment_method
  else Except.error "Invalid payment method"

/-- Embeds `ExtraResource.validate_title` (src/models.py:193-197). -/
def ExtraResource.validate_title (_self : ExtraResource) (title : String) :
    Except String String :=
  if title.length < 5 then
    Except.error "Title must be at least 5 characters long"
  else Except.ok title

/-! ### Attribute lookup (which names each class actually defines) -/

/-- Attributes defined on a `User` instance by its column declarations
(src/models.py:12-16).  `username`, `phone` and `date_joined` are not among
them. -/
def User.getAttr (u : User) : String → Option PyVal
  | "user_id" => some (PyVal.vInt u.user_id)
  | "role" => some (PyVal.vStr u.role)
  | "name" => some (PyVal.vStr u.name)
  | "email" => some (PyVal.vStr u.email)
  | "password_hash" => some (PyVal.vStr u.password_hash)
  | _ => none

/-- Attributes defined on a `Job` instance by its column declarations
(src/models.py:61-68). -/
def Job.getAttr (j : Job) : String → Option PyVal
  | "job_id" => some (PyVal.vInt j.job_id)
  | "job_name" => some (PyVal.vStr j.job_name)
  | "job_description" => some (PyVal.vStr j.job_description)
  | "location" => some (PyVal.vStr j.location)
  | "requirements" => some (PyVal.vStr j.requirements)
  | "salary" => some (PyVal.vRat j.salary)
  | "posted_date" => some (PyVal.vInt j.posted_date)
  | "expiration_date" => some (PyVal.vInt j.expiration_date)
  | _ => none

/-- Attributes defined on a `JobApplication` instance by its column
declarations (src/models.py:112-114).  There is no `status` and no
`application_date`. -/
def JobApplication.getAttr (a : JobApplication) : String → Option PyVal
  | "application_id" => some (PyVal.vInt a.application_id)
  | "user_id" => some (PyVal.vInt a.user_id)
  | "job_id" => some (PyVal.vInt a.job_id)
  | _ => none

/-- Attributes defined on a `Payment` instance by its column declarations
(src/models.py:152-156).  There is no `payment_status`. -/
def Payment.getAttr (p : Payment) : String → Option PyVal
  | "payment_id" => some (PyVal.vInt p.payment_id)
  | "user_id" => some (PyVal.vInt p.user_id)
  | "amount" => some (PyVal.vRat p.amount)
  | "payment_date" => some (PyVal.vInt p.payment_date)
  | "payment_method" => some (PyVal.vStr p.payment_method)
  | _ => none

/-- Attributes defined on an `ExtraResource` instance by its column
declarations (src/models.py:189-191).  There is no `job_id` foreign key, no
`job` relationship, no `resource_name` and no `resource_type`. -/
def ExtraResource.getAttr (r : ExtraResource) : String → Option PyVal
  | "resource_id" => some (PyVal.vInt r.resource_id)
  | "title" => some (PyVal.vStr r.title)
  | "description" => some (PyVal.vStr r.description)
  | _ => none

/-! ### Assignment semantics

SQLAlchemy runs the `@validates` hook for a key before the attribute is
set; a raised `ValueError` propagates and the attribute is never written.
A key with no hook — in particular a name that is not even a declared
column — is set as a plain Python attribute with no check, leaving every
mapped column unchanged.  A setter returns the (possibly updated) entity
together with `some message` when the assignment raised. -/

/-- Runs a validation hook result against an update: on success the update
is applied, on a raised error the entity is returned untouched. -/
def applyValidated {α β : Type} (ent : α) (res : Except String β)
    (upd : β → α) : α × Option String :=
  match res with
  | Except.ok v => (upd v, Option.none)
  | Except.error m => (ent, Option.some m)

/-- String-attribute assignment on `User`: the keys `email`, `role` and
`password_hash` have `@validates` hooks (src/models.py:18-34); `name` is a
plain column; any other key (`username` included) is an undeclared
attribute, set without any validation. -/
def User.setStr (u : User) (k v : String) : User × Option String :=
  if k = "email" then
    applyValidated u (User.validate_email u v) (fun s => { u with email := s })
  else if k = "role" then
    applyValidated u (User.validate_role u v) (fun s => { u with role := s })
  else if k = "password_hash" then
    applyValidated u (User.validate_password_hash u v)
      (fun s => { u with password_hash := s })
  else if k = "name" then ({ u with name := v }, Option.none)
  else (u, Option.none)

/-- Assignment of `Job.salary`, guarded by `validate_salary`. -/
def Job.setSalary (j : Job) (v : Rat) : Job × Option String :=
  applyValidated j (Job.validate_salary j v) (fun s => { j with salary := s })

/-- Assignment of `Job.expiration_date`, guarded by
`validate_expiration_date`. -/
def Job.setExpirationDate (j : Job) (v : Int) : Job × Option String :=
  applyValidated j (Job.validate_expiration_date j v)
    (fun e => { j with expiration_date := e })

/-- Assignment of `Job.posted_date`, guarded by `validate_posted_date`
(which raises on every candidate, so this assignment always aborts). -/
def Job.setPostedDate (j : Job) (v : Int) : Job × Option String :=
  applyValidated j (Job.validate_posted_date j v)
    (fun d => { j with posted_date := d })

/-- Assignment of `Payment.amount`, guarded by `validate_amount`. -/
def Payment.setAmount (p : Payment) (v : Rat) : Payment × Option String :=
  applyValidated p (Payment.validate_amount p v)
    (fun a => { p with amount := a })

/-- Assignment of `Payment.payment_method`, guarded by
`validate_payment_method`. -/
def Payment.setPaymentMethod (p : Payment) (v : String) :
    Payment × Option String :=
  applyValidated p (Payment.validate_payment_method p v)
    (fun m => { p with payment_method := m })

/-- Assignment of `ExtraResource.title`, guarded by `validate_title`. -/
def ExtraResource.setTitle (r : ExtraResource) (v : String) :
    ExtraResource × Option String :=
  applyValidated r (ExtraResource.validate_title r v)
    (fun t => { r with title := t })

/-- String-attribute assignment on `JobApplication`: the class declares no
`@validates` hook and no string column at all (src/models.py:110-115), so
every string assignment — `status` included — is a plain attribute set,
accepted without any check and leaving the mapped columns unchanged. -/
def JobApplication.setStr (a : JobApplication) (_k _v : String) :
    JobApplication × Option String :=
  (a, Option.none)

/-! ### Serializers (`to_dict` methods, embedded in source evaluation order)

Python evaluates the values of a dict literal left to right, so the first
read of an attribute the class does not define raises `AttributeError` and
aborts the whole serialization.  The embeddings below perform the reads in
exactly the source's order.  None of them ever calls another entity's
`to_dict` for the embedded `user`/`job` sub-records: those are built inline
from individual attribute reads. -/

/-- Embeds `Payment.to_dict` (src/models.py:171-184).  Reads `amount`,
`payment_date`, `payment_status` (undefined), then the related user's
`username` (undefined), `email`, `phone` (undefined), `role`,
`date_joined` (undefined). -/
def Payment.to_dict (p : Payment) (u : User) : Except String PyVal := do
  let amount ← readAttr (p.getAttr "amount") "amount"
  let payment_date ← readAttr (p.getAttr "payment_date") "payment_date"
  let payment_status ← readAttr (p.getAttr "payment_status") "payment_status"
  let uu ← readAttr (u.getAttr "username") "username"
  let ue ← readAttr (u.getAttr "email") "email"
  let up ← readAttr (u.getAttr "phone") "phone"
  let ur ← readAttr (u.getAttr "role") "role"
  let ud ← readAttr (u.getAttr "date_joined") "date_joined"
  Except.ok (PyVal.vDict [("amount", amount), ("payment_date", payment_date),
    ("payment_status", payment_status),
    ("user", PyVal.vDict [("username", uu), ("email", ue), ("phone", up),
      ("role", ur), ("date_joined", ud)])])

/-- Embeds `User.to_dict` (src/models.py:36-46).  Reads `username`
(undefined), `email`, `phone` (undefined), `role`, `date_joined`
(undefined), then serializes `self.payments` (a declared relationship,
passed in as the user's payment rows) and finally reads
`self.applications`, which is also undefined (the declared relationship is
named `job_applications`). -/
def User.to_dict (u : User) (ps : List Payment) : Except String PyVal := do
  let username ← readAttr (u.getAttr "username") "username"
  let email ← readAttr (u.getAttr "email") "email"
  let phone ← readAttr (u.getAttr "phone") "phone"
  let role ← readAttr (u.getAttr "role") "role"
  let date_joined ← readAttr (u.getAttr "date_joined") "date_joined"
  let pays ← ps.mapM (fun p => Payment.to_dict p u)
  let apps ← readAttr Option.none "applications"
  Except.ok (PyVal.vDict [("username", username), ("email", email),
    ("phone", phone), ("role", role), ("date_joined", date_joined),
    ("payments", PyVal.vList pays), ("applications", apps)])

/-- Embeds `JobApplication.to_dict` (src/models.py:120-148).  The embedded
`user` and `job` sub-records are dict literals built from individual
attribute reads — no recursive `to_dict` call occurs — but the very first
read, `self.application_date`, is already an attribute the class does not
define, and most of the later reads (`status`, `user.username`,
`job.title`, ...) are undefined as well. -/
def JobApplication.to_dict (a : JobApplication) (u : User) (j : Job) :
    Except String PyVal := do
  let application_date ← readAttr (a.getAttr "application_date") "application_date"
  let status ← readAttr (a.getAttr "status") "status"
  let uu ← readAttr (u.getAttr "username") "username"
  let ue ← readAttr (u.getAttr "email") "email"
  let up ← readAttr (u.getAttr "phone") "phone"
  let ur ← readAttr (u.getAttr "role") "role"
  let ud ← readAttr (u.getAttr "date_joined") "date_joined"
  let jt ← readAttr (j.getAttr "title") "title"
  let jd ← readAttr (j.getAttr "description") "description"
  let jl ← readAttr (j.getAttr "location") "location"
  let jsmin ← readAttr (j.getAttr "salary_min") "salary_min"
  let jsmax ← readAttr (j.getAttr "salary_max") "salary_max"
  let jty ← readAttr (j.getAttr "job_type") "job_type"
  let jsk ← readAttr (j.getAttr "skills_required") "skills_required"
  let jbe ← readAttr (j.getAttr "benefits") "benefits"
  let jdl ← readAttr (j.getAttr "application_deadline") "application_deadline"
  let jem ← readAttr (j.getAttr "employer") "employer"
  let jee ← readAttr (j.getAttr "employer_email") "employer_email"
  let jep ← readAttr (j.getAttr "employer_phone") "employer_phone"
  let jdp ← readAttr (j.getAttr "date_posted") "date_posted"
  let jia ← readAttr (j.getAttr "is_active") "is_active"
  Except.ok (PyVal.vDict [("application_date", application_date),
    ("status", status),
    ("user", PyVal.vDict [("username", uu), ("email", ue), ("phone", up),
      ("role", ur), ("date_joined", ud)]),
    ("job", PyVal.vDict [("title", jt), ("description", jd),
      ("location", jl), ("salary_min", jsmin), ("salary_max", jsmax),
      ("job_type", jty), ("skills_required", jsk), ("benefits", jbe),
      ("application_deadline", jdl), ("employer", jem),
      ("employer_email", jee), ("employer_phone", jep),
      ("date_posted", jdp), ("is_active", jia)])])

/-! ### The persistent store and cascade behaviour -/

/-- The five tables of the schema. -/
structure Store where
  users : List User
  jobs : List Job
  job_applications : List JobApplication
  payments : List Payment
  extra_resources : List ExtraResource
deriving DecidableEq

/-- Deleting a `Job` row.  The only cascade declared on `Job` is
`job_applications = db.relationship('JobApplication', ...,
cascade="all, delete")` (src/models.py:86), so the job's applications are
deleted with it.  The source declares no relationship and no foreign key
between `Job` and `ExtraResource`, so the `extra_resources` table is not
involved in the deletion at all. -/
def deleteJob (s : Store) (jid : Int) : Store :=
  { s with
    jobs := s.jobs.filter (fun j => !(j.job_id == jid)),
    job_applications := s.job_applications.filter (fun a => !(a.job_id == jid)) }

/-! ### Concrete sample rows (used by counterexamples and witnesses) -/

/-- A valid sample user row. -/
def sampleUser : User :=
  { user_id := 1, role := "normal", name := "Ann", email := "ann@x.co",
    password_hash := "abcdef123" }

/-- A valid sample job row (posted at instant 0, expiring at instant 100). -/
def sampleJob : Job :=
  { job_id := 1, job_name := "Engineer", job_description := "Builds things",
    location := "Remote", requirements := "Python", salary := 1000,
    posted_date := 0, expiration_date := 100 }

/-- A sample application row referencing the sample user and job. -/
def sampleApp : JobApplication :=
  { application_id := 1, user_id := 1, job_id := 1 }

/-- A valid sample payment row. -/
def samplePayment : Payment :=
  { payment_id := 1, user_id := 1, amount := 5000, payment_date := 0,
    payment_method := "paypal" }

/-- A sample extra-resource row (note: no reference to any job is even
possible, the class has no such column). -/
def sampleResource : ExtraResource :=
  { resource_id := 1, title := "Interview guide", description := "A guide" }

/-- A sample store populated with one row per table. -/
def sampleStore : Store :=
  { users := [sampleUser], jobs := [sampleJob],
    job_applications := [sampleApp], payments := [samplePayment],
    extra_resources := [sampleResource] }

/-! ### Spec-side definitions

`specEmailPattern` is modelled from the spec's words, not from the source:
"must match a simple pattern `local@domain.tld` (non-empty local part,
domain with at least one dot)" — the string splits at its first `'@'` into
a non-empty local part and a domain containing at least one `'.'`.  It
exists only to be compared against the source's regex semantics. -/

/-- Helper for `specEmailPattern`: after at least one local character, find
the first `'@'` and test whether the rest contains a `'.'`. -/
def specAfterHead : List Char → Bool
  | [] => false
  | '@' :: domain => domain.contains '.'
  | _ :: t => specAfterHead t

/-- Modelled from the spec: a non-empty local part before the first `'@'`,
and a domain (everything after it) containing at least one dot. -/
def specEmailPattern (s : String) : Bool :=
  match s.toList with
  | [] => false
  | '@' :: _ => false
  | _ :: t => specAfterHead t

/-- Declarative reading of the source regex `[^@]+@[^@]+\.[^@]+` under
`re.match`, over a character list: some prefix decomposes as a non-empty
`'@'`-free local part, `'@'`, a non-empty `'@'`-free run, `'.'`, and one
further non-`'@'` character; the remainder `r` is arbitrary. -/
def RegexMatchesL (l : List Char) : Prop :=
  ∃ a b c r, l = a ++ '@' :: (b ++ '.' :: c :: r) ∧
    a ≠ [] ∧ '@' ∉ a ∧ b ≠ [] ∧ '@' ∉ b ∧ c ≠ '@'

/-- Declarative reading of the source regex on strings. -/
def RegexMatches (s : String) : Prop :=
  RegexMatchesL s.toList

/-- Decompositions recognised by `dotScan` (the `'@'`-free run before the
dot may here be empty, its first character having been consumed by
`afterAtScan`). -/
def DotDecomp (l : List Char) : Prop :=
  ∃ b c r, l = b ++ '.' :: c :: r ∧ '@' ∉ b ∧ c ≠ '@'

/-- Decompositions recognised by `afterAtScan`. -/
def AfterAtDecomp (l : List Char) : Prop :=
  ∃ b c r, l = b ++ '.' :: c :: r ∧ b ≠ [] ∧ '@' ∉ b ∧ c ≠ '@'

/-- Decompositions recognised by `localScan` (the local part may here be
empty, its first character having been consumed by the caller). -/
def LocalDecomp (l : List Char) : Prop :=
  ∃ a r, l = a ++ '@' :: r ∧ '@' ∉ a ∧ AfterAtDecomp r

/-! ### Characterisation of the regex scanners -/

/-- Soundness and completeness of `dotScan` for `DotDecomp`. -/
theorem dotScan_iff (l : List Char) : dotScan l = true ↔ DotDecomp l := by
  unfold DotDecomp
  induction l with
  | nil =>
    constructor
    · intro h; simp [dotScan] at h
    · rintro ⟨b, c, r, h, -, -⟩
      cases b <;> simp at h
  | cons x t ih =>
    constructor
    · intro h
      by_cases hx : x = '@'
      · subst hx; simp [dotScan] at h
      · by_cases hd : x = '.'
        · subst hd
          cases t with
          | nil => simp [dotScan] at h
          | cons c t' =>
            simp [dotScan] at h
            exact ⟨[], c, t', rfl, by simp, h⟩
        · rw [show dotScan (x :: t) = dotScan t by simp [dotScan, hx, hd]] at h
          obtain ⟨b, c, r, hbt, hb, hc⟩ := ih.mp h
          refine ⟨x :: b, c, r, by simp [hbt], ?_, hc⟩
          simp only [List.mem_cons]
          push_neg
          exact ⟨Ne.symm hx, hb⟩
    · rintro ⟨b, c, r, hbt, hb, hc⟩
      cases b with
      | nil =>
        simp only [List.nil_append] at hbt
        injection hbt with h1 h2
        subst h1; subst h2
        simp [dotScan, hc]
      | cons b0 bs =>
        rw [List.cons_append] at hbt
        injection hbt with h1 h2
        subst h1; subst h2
        have hx : x ≠ '@' := fun hh => hb (by simp [hh])
        by_cases hd : x = '.'
        · subst hd
          cases bs with
          | nil => simp [dotScan]
          | cons y ys =>
            have hy : y ≠ '@' := fun hh => hb (by simp [hh])
            simp [dotScan, hy]
        · rw [show dotScan (x :: (bs ++ '.' :: c :: r)) =
              dotScan (bs ++ '.' :: c :: r) by simp [dotScan, hx, hd]]
          exact ih.mpr ⟨bs, c, r, rfl,
            fun hh => hb (List.mem_cons_of_mem _ hh), hc⟩

/-- Soundness and completeness of `afterAtScan` for `AfterAtDecomp`. -/
theorem afterAtScan_iff (l : List Char) :
    afterAtScan l = true ↔ AfterAtDecomp l := by
  unfold AfterAtDecomp
  cases l with
  | nil =>
    constructor
    · intro h; simp [afterAtScan] at h
    · rintro ⟨b, c, r, h, -, -, -⟩
      cases b <;> simp at h
  | cons x t =>
    by_cases hx : x = '@'
    · subst hx
      constructor
      · intro h; simp [afterAtScan] at h
      · rintro ⟨b, c, r, h, hbne, hb, -⟩
        cases b with
        | nil => exact absurd rfl hbne
        | cons b0 bs =>
          rw [List.cons_append] at h
          injection h with h1 h2
          subst h1
          exact absurd (List.mem_cons_self _ _) hb
    · rw [show afterAtScan (x :: t) = dotScan t by simp [afterAtScan, hx],
        dotScan_iff]
      unfold DotDecomp
      constructor
      · rintro ⟨b, c, r, hbt, hb, hc⟩
        refine ⟨x :: b, c, r, by simp [hbt], by simp, ?_, hc⟩
        simp only [List.mem_cons]
        push_neg
        exact ⟨Ne.symm hx, hb⟩
      · rintro ⟨b, c, r, hbt, hbne, hb, hc⟩
        cases b with
        | nil => exact absurd rfl hbne
        | cons b0 bs =>
          rw [List.cons_append] at hbt
          injection hbt with h1 h2
          exact ⟨bs, c, r, h2,
            fun hh => hb (List.mem_cons_of_mem _ hh), hc⟩

/-- Soundness and completeness of `localScan` for `LocalDecomp`. -/
theorem localScan_iff (l : List Char) : localScan l = true ↔ LocalDecomp l := by
  unfold LocalDecomp
  induction l with
  | nil =>
    constructor
    · intro h; simp [localScan] at h
    · rintro ⟨a, r, h, -, -⟩
      cases a <;> simp at h
  | cons x t ih =>
    by_cases hx : x = '@'
    · subst hx
      rw [show localScan ('@' :: t) = afterAtScan t by simp [localScan],
        afterAtScan_iff]
      constructor
      · intro h
        exact ⟨[], t, rfl, by simp, h⟩
      · rintro ⟨a, r, hat, ha, hr⟩
        cases a with
        | nil =>
          simp only [List.nil_append] at hat
          injection hat with h1 h2
          rwa [h2]
        | cons a0 as =>
          rw [List.cons_append] at hat
          injection hat with h1 h2
          subst h1
          exact absurd (List.mem_cons_self _ _) ha
    · rw [show localScan (x :: t) = localScan t by simp [localScan, hx], ih]
      constructor
      · rintro ⟨a, r, hat, ha, hr⟩
        refine ⟨x :: a, r, by simp [hat], ?_, hr⟩
        simp only [List.mem_cons]
        push_neg
        exact ⟨Ne.symm hx, ha⟩
      · rintro ⟨a, r, hat, ha, hr⟩
        cases a with
        | nil =>
          simp only [List.nil_append] at hat
          injection hat with h1 h2
          exact absurd h1 hx
        | cons a0 as =>
          rw [List.cons_append] at hat
          injection hat with h1 h2
          subst h1
          exact ⟨as, r, h2,
            fun hh => ha (List.mem_cons_of_mem _ hh), hr⟩

/-- Soundness and completeness of the full scanner for the declarative
reading of the source regex. -/
theorem regexScan_iff (l : List Char) : regexScan l = true ↔ RegexMatchesL l := by
  unfold RegexMatchesL
  cases l with
  | nil =>
    constructor
    · intro h; simp [regexScan] at h
    · rintro ⟨a, b, c, r, h, -, -, -, -, -⟩
      cases a <;> simp at h
  | cons x t =>
    by_cases hx : x = '@'
    · subst hx
      constructor
      · intro h; simp [regexScan] at h
      · rintro ⟨a, b, c, r, h, hane, ha, -, -, -⟩
        cases a with
        | nil => exact absurd rfl hane
        | cons a0 as =>
          rw [List.cons_append] at h
          injection h with h1 h2
          subst h1
          exact absurd (List.mem_cons_self _ _) ha
    · rw [show regexScan (x :: t) = localScan t by simp [regexScan, hx],
        localScan_iff]
      unfold LocalDecomp AfterAtDecomp
      constructor
      · rintro ⟨a, r, hat, ha, b, c, r', hbr, hbne, hb, hc⟩
        refine ⟨x :: a, b, c, r', ?_, by simp, ?_, hbne, hb, hc⟩
        · rw [hat, hbr]; simp
        · simp only [List.mem_cons]
          push_neg
          exact ⟨Ne.symm hx, ha⟩
      · rintro ⟨a, b, c, r, h, hane, ha, hbne, hb, hc⟩
        cases a with
        | nil => exact absurd rfl hane
        | cons a0 as =>
          rw [List.cons_append] at h
          injection h with h1 h2
          subst h1
          exact ⟨as, b ++ '.' :: c :: r, h2,
            fun hh => ha (List.mem_cons_of_mem _ hh), b, c, r, rfl, hbne, hb, hc⟩

/-- The string-level scanner agrees with the declarative regex reading. -/
theorem emailRegexAccepts_iff (s : String) :
    emailRegexAccepts s = true ↔ RegexMatches s :=
  regexScan_iff s.toList

/-! ### Claim theorems -/

/-- C1 (counterexample): the claim says any amount different from 5000 is
rejected, but `Payment.validate_amount` accepts the amount 100, which
differs from 5000. -/
theorem amount_100_accepted_despite_ne_5000 :
    Payment.validate_amount samplePayment 100 = Except.ok 100 ∧
    (100 : Rat) ≠ 5000 := by
  exact ⟨rfl, by decide⟩

/-- C1 (amended): `Payment.validate_amount` accepts a candidate amount if
and only if it is strictly positive, and rejects it with the error
"Amount must be greater than 0" if and only if it is ≤ 0; no fixed-constant
equality check exists (5000 is accepted, but so is every other positive
amount). -/
theorem validate_amount_accepts_iff_positive :
    ∀ (p : Payment) (a : Rat),
      (Payment.validate_amount p a = Except.ok a ↔ 0 < a) ∧
      (Payment.validate_amount p a = Except.error "Amount must be greater than 0"
        ↔ a ≤ 0) := by
  intro p a
  unfold Payment.validate_amount
  by_cases h : a ≤ 0
  · simp [h, not_lt.mpr h]
  · simp [h, lt_of_not_le h]

/-- C2 (counterexample): the claim says any candidate deadline ≤ now is
rejected at validation time, but `Job.validate_expiration_date` only
compares against the job's stored `posted_date`.  For `sampleJob`
(posted at instant 0) the candidate deadline 5 is accepted, even at a
validation instant such as 10 where the deadline is already in the past. -/
theorem past_deadline_accepted_when_after_posted_date :
    Job.validate_expiration_date sampleJob 5 = Except.ok 5 ∧
    sampleJob.posted_date = 0 ∧ (5 : Int) ≤ 10 := by
  exact ⟨rfl, rfl, by decide⟩

/-- C2 (amended): `Job.validate_expiration_date` accepts a candidate
expiration date if and only if it is strictly later than the entity's
stored `posted_date`, and rejects it with the error "Expiration date must
be after posted date" if and only if it is ≤ `posted_date`; the current
time `now()` plays no part. -/
theorem validate_expiration_date_iff_posted_date :
    ∀ (j : Job) (e : Int),
      (Job.validate_expiration_date j e = Except.ok e ↔ j.posted_date < e) ∧
      (Job.validate_expiration_date j e =
          Except.error "Expiration date must be after posted date"
        ↔ e ≤ j.posted_date) := by
  intro j e
  unfold Job.validate_expiration_date
  by_cases h : e ≤ j.posted_date
  · simp [h, not_lt.mpr h]
  · simp [h, lt_of_not_le h]

/-- C3 (counterexample): the claim says a username shorter than 3
characters is rejected, but `User` declares no `username` column and no
username validator, so assigning the 2-character username "ab" is accepted
without any rejection (and changes no mapped column). -/
theorem short_username_assignment_accepted :
    User.setStr sampleUser "username" "ab" = (sampleUser, Option.none) ∧
    "ab".length < 3 := by
  exact ⟨rfl, by decide⟩

/-- C3 (amended): `User` declares no `username` column and no username
validation hook, so assigning a username of any length is accepted with no
rejection — there is no "length ≥ 3 / TooShort" rule in the code. -/
theorem username_assignment_never_rejected :
    ∀ (u : User) (v : String),
      User.setStr u "username" v = (u, Option.none) := by
  intro u v
  rfl

/-- C4 (counterexample): the string "a@." matches the spec's pattern (its
local part "a" is non-empty and its domain "." contains a dot), yet
`User.validate_email` rejects it, because the source regex additionally
demands a non-empty run before the dot and a character after it. -/
theorem spec_email_pattern_string_rejected :
    specEmailPattern "a@." = true ∧
    User.validate_email sampleUser "a@." = Except.error "Invalid email format" := by
  exact ⟨rfl, rfl⟩

/-- C4 (amended): `User.validate_email` accepts exactly the strings with a
prefix matching `[^@]+@[^@]+\.[^@]+`: a non-empty `'@'`-free local part,
`'@'`, a non-empty `'@'`-free run, a dot, and at least one further
non-`'@'` character, with arbitrary trailing text.  Acceptance is therefore
strictly narrower than "domain contains a dot" (e.g. "a@." and "a@b." are
rejected) and strictly wider than whole-string matching (e.g. "a@b.c@d" is
accepted). -/
theorem validate_email_iff_regex_decomposition :
    ∀ (u : User) (s : String),
      (User.validate_email u s = Except.ok s ↔ RegexMatches s) ∧
      (User.validate_email u s = Except.error "Invalid email format"
        ↔ ¬ RegexMatches s) := by
  intro u s
  unfold User.validate_email
  by_cases h : emailRegexAccepts s = true
  · simp [h, (emailRegexAccepts_iff s).mp h]
  · have hm : ¬ RegexMatches s := fun hr => h ((emailRegexAccepts_iff s).mpr hr)
    simp [h, hm]

/-- C5 (counterexample): the claim says every salary value ≥ 0, including
0, is accepted, but `Job.validate_salary` rejects the value 0. -/
theorem zero_salary_rejected :
    Job.validate_salary sampleJob 0 = Except.error "Salary must be greater than 0" ∧
    (0 : Rat) ≤ 0 := by
  exact ⟨rfl, by decide⟩

/-- C5 (amended): `Job` has a single required `salary` column (no optional
min/max bounds), and `Job.validate_salary` accepts a candidate value if and
only if it is strictly positive, rejecting every value ≤ 0 — zero included
— with the error "Salary must be greater than 0". -/
theorem validate_salary_accepts_iff_positive :
    ∀ (j : Job) (v : Rat),
      (Job.validate_salary j v = Except.ok v ↔ 0 < v) ∧
      (Job.validate_salary j v = Except.error "Salary must be greater than 0"
        ↔ v ≤ 0) := by
  intro j v
  unfold Job.validate_salary
  by_cases h : v ≤ 0
  · simp [h, not_lt.mpr h]
  · simp [h, lt_of_not_le h]

/-- C6 (counterexample): the claim says a status value outside
{pending, accepted, rejected} is rejected, but `JobApplication` declares no
`status` column and no validator at all: reading `status` on the sample
application raises `AttributeError` (there is no initial "pending" value),
and assigning the out-of-set value "bogus" is accepted without any check. -/
theorem status_missing_and_bogus_accepted :
    JobApplication.getAttr sampleApp "status" = Option.none ∧
    JobApplication.setStr sampleApp "status" "bogus" = (sampleApp, Option.none) ∧
    ¬ ("bogus" ∈ ["pending", "accepted", "rejected"]) := by
  exact ⟨rfl, rfl, by decide⟩

/-- C6 (amended): `JobApplication` declares no `status` column — a freshly
created application has no status value at all (its own `to_dict` even
fails reading it) — and no validator, so assigning any status string,
including values outside {pending, accepted, rejected}, is accepted
unvalidated and changes no mapped column. -/
theorem job_application_status_absent_unvalidated :
    ∀ (a : JobApplication) (v : String),
      JobApplication.getAttr a "status" = Option.none ∧
      JobApplication.setStr a "status" v = (a, Option.none) := by
  intro a v
  exact ⟨rfl, rfl⟩

/-- C7 (code bug): deleting a Job does cascade to its JobApplications
(the declared `cascade="all, delete"` relationship), but the source
declares no foreign key and no relationship between `ExtraResource` and
`Job` at all — even though `ExtraResource.to_dict` reads `self.job` and the
spec says every ExtraResource references exactly one Job — so a Job
deletion cannot remove any ExtraResource: the `extra_resources` table is
untouched, and its rows have no `job_id` or `job` attribute to refer to a
job through. -/
theorem deleteJob_cascades_applications_not_resources :
    ∀ (s : Store) (jid : Int),
      (deleteJob s jid).extra_resources = s.extra_resources ∧
      (deleteJob s jid).job_applications.all (fun a => !(a.job_id == jid)) = true ∧
      (∀ r : ExtraResource, ExtraResource.getAttr r "job_id" = Option.none ∧
        ExtraResource.getAttr r "job" = Option.none) := by
  intro s jid
  refine ⟨rfl, ?_, fun r => ⟨rfl, rfl⟩⟩
  rw [List.all_eq_true]
  intro a ha
  exact (List.mem_filter.mp ha).2

/-- Helper for atomicity: whenever an applied validation hook raises, the
entity comes back untouched. -/
theorem applyValidated_error_frozen {α β : Type} (ent : α)
    (res : Except String β) (upd : β → α)
    (h : (applyValidated ent res upd).2.isSome = true) :
    (applyValidated ent res upd).1 = ent := by
  cases res with
  | ok v => simp [applyValidated] at h
  | error m => rfl

/-- C8: every rejected field assignment, on every entity, aborts the
mutation and returns the entity with all of its columns unchanged — the
`@validates` hook raises before the attribute is written.  The conjuncts
cover all nine validated assignment sites of the source: `User`'s `email`,
`role` and `password_hash` (through `setStr`), `Job`'s `salary`,
`expiration_date` and `posted_date` (whose hook rejects every candidate),
`Payment`'s `amount` and `payment_method`, and `ExtraResource`'s
`title`. -/
theorem rejected_assignment_preserves_entity :
    (∀ (u : User) (k v : String),
      (User.setStr u k v).2.isSome = true → (User.setStr u k v).1 = u) ∧
    (∀ (j : Job) (v : Rat),
      (Job.setSalary j v).2.isSome = true → (Job.setSalary j v).1 = j) ∧
    (∀ (j : Job) (v : Int),
      (Job.setExpirationDate j v).2.isSome = true →
        (Job.setExpirationDate j v).1 = j) ∧
    (∀ (j : Job) (v : Int),
      (Job.setPostedDate j v).2.isSome = true → (Job.setPostedDate j v).1 = j) ∧
    (∀ (p : Payment) (v : Rat),
      (Payment.setAmount p v).2.isSome = true → (Payment.setAmount p v).1 = p) ∧
    (∀ (p : Payment) (v : String),
      (Payment.setPaymentMethod p v).2.isSome = true →
        (Payment.setPaymentMethod p v).1 = p) ∧
    (∀ (r : ExtraResource) (v : String),
      (ExtraResource.setTitle r v).2.isSome = true →
        (ExtraResource.setTitle r v).1 = r) := by
  refine ⟨?_, ?_, ?_, ?_, ?_, ?_, ?_⟩
  · intro u k v h
    unfold User.setStr at h ⊢
    split_ifs at h ⊢ with h1 h2 h3 h4
    · exact applyValidated_error_frozen _ _ _ h
    · exact applyValidated_error_frozen _ _ _ h
    · exact applyValidated_error_frozen _ _ _ h
    · simp at h
    · simp at h
  · intro j v h
    exact applyValidated_error_frozen _ _ _ h
  · intro j v h
    exact applyValidated_error_frozen _ _ _ h
  · intro j v h
    exact applyValidated_error_frozen _ _ _ h
  · intro p v h
    exact applyValidated_error_frozen _ _ _ h
  · intro p v h
    exact applyValidated_error_frozen _ _ _ h
  · intro r v h
    exact applyValidated_error_frozen _ _ _ h

/-- C8 (witness): the rejected assignment of the malformed email
"not-an-email" to the sample user leaves the sample user unchanged. -/
theorem rejected_assignment_preserves_entity_witness :
    (User.setStr sampleUser "email" "not-an-email").2.isSome = true ∧
    (User.setStr sampleUser "email" "not-an-email").1 = sampleUser :=
  ⟨by decide,
    rejected_assignment_preserves_entity.1 sampleUser "email" "not-an-email"
      (by decide)⟩

/-- C9 (counterexample): the claim says serializing a JobApplication
produces a record embedding its Job one level deep, but on the sample
application serialization never produces a record at all: the very first
attribute read, `self.application_date`, is undefined on the model and
raises `AttributeError`. -/
theorem job_application_to_dict_errors_concrete :
    JobApplication.to_dict sampleApp sampleUser sampleJob =
      Except.error "AttributeError: application_date" := rfl

/-- C9 (amended): `JobApplication.to_dict` builds its embedded `user` and
`job` sub-records inline from individual attribute reads and never invokes
`to_dict` on the related entities, so no re-embedding or recursion can
occur; however, for every application, user and job it fails with
`AttributeError` on `application_date` — the first of several attributes
(`status`, `user.username`, `job.title`, ...) that the models do not
define — so serialization terminates with an error instead of an output
record. -/
theorem job_application_to_dict_always_errors :
    ∀ (a : JobApplication) (u : User) (j : Job),
      JobApplication.to_dict a u j =
        Except.error "AttributeError: application_date" := by
  intro a u j
  rfl

/-- C10: `User.to_dict` never succeeds: its first attribute read,
`self.username`, is undefined on the model (as are `phone` and
`date_joined`, read later), so serializing any User — whatever its payments
— raises `AttributeError` instead of returning an output record. -/
theorem user_to_dict_never_succeeds :
    ∀ (u : User) (ps : List Payment),
      User.to_dict u ps = Except.error "AttributeError: username" ∧
      User.getAttr u "username" = Option.none ∧
      User.getAttr u "phone" = Option.none ∧
      User.getAttr u "date_joined" = Option.none := by
  intro u ps
  exact ⟨rfl, rfl, rfl, rfl⟩

end Pathway
